import Mathlib

/-!
Verification of `djangojs/templatetags/js.py` (django.js template tags).

The file shallowly embeds the template-tag helpers of the repository:
the verbatim-block extractor `verbatim_tags`, the fragment renderer of
`VerbatimNode.render`, the `<script>`-tag formatter `javascript` and its
wrappers `js_lib` / `jquery_js`, and the boolean coercion `_boolean`.
Python strings are Lean `String`s (lists of characters); the mutable
token stream `parser.tokens` is passed explicitly and the remaining
stream is returned; Python exceptions are the `Except` error channel.
-/

deriving instance DecidableEq for Except

namespace DjangoJs

/-! ## Python string primitives

`splitWhen` is Python's `str.split(sep)` splitting discipline at the
character-list level: every separator occurrence produces a cut, and
empty pieces are kept (`"a??b".split("?") == ["a", "", "b"]`,
`"".split("?") == [""]`). -/

def splitWhen (p : Char → Bool) : List Char → List (List Char)
  | [] => [[]]
  | x :: xs =>
    if p x then [] :: splitWhen p xs
    else
      match splitWhen p xs with
      | [] => [[x]]
      | h :: t => (x :: h) :: t

/-- Python `s.split(c)` for a one-character separator `c`. -/
def py_split (c : Char) (l : List Char) : List (List Char) :=
  splitWhen (fun x => x == c) l

/-- Joining a list of pieces with a single separator character between
consecutive pieces; the left inverse used to reason about `py_split`. -/
def joinSep (c : Char) : List (List Char) → List Char
  | [] => []
  | [a] => a
  | a :: b :: t => a ++ c :: joinSep c (b :: t)

/-- Python `s.lower()` (character-wise lowering; the inputs the spec
cares about are ASCII, where this matches Python exactly). -/
def pyLower (s : String) : String := ⟨s.data.map Char.toLower⟩

/-- Python `s.split()` with no argument: split on whitespace runs and
drop empty pieces, so `"".split() == []` and `"  ".split() == []`. -/
def pyWordSplit (s : String) : List String :=
  ((splitWhen Char.isWhitespace s.data).filter (fun w => w ≠ [])).map String.mk

/-! ## Data model of the verbatim-block extractor -/

/-- The three token kinds `verbatim_tags` dispatches on
(`template.TOKEN_TEXT` / `TOKEN_VAR` / `TOKEN_BLOCK`). -/
inductive TokenType
  | TOKEN_TEXT
  | TOKEN_VAR
  | TOKEN_BLOCK
  deriving DecidableEq, Repr

/-- A token of the external tokenizer: a kind and a string payload. -/
structure Token where
  token_type : TokenType
  contents : String
  deriving DecidableEq, Repr

/-- An entry of `text_and_nodes`: a literal string or a compiled node
(the node type is abstract; compile functions produce it). -/
inductive Fragment (Node : Type)
  | lit (s : String)
  | node (n : Node)
  deriving DecidableEq, Repr

/-- The Python exceptions that can escape `verbatim_tags`:
`unterminated` is the `IndexError` of `parser.tokens.pop(0)` on an
exhausted stream; `malformedBlock` is the error raised by the parser
hook `parser.empty_block_tag`; `unknownTag` the one raised by
`parser.invalid_block_tag`; `tagCompileError` a re-raised
`TemplateSyntaxError` of a sub-tag compile function; `nameError` the
`NameError` of reading the local variable `node` before any
assignment to it. -/
inductive ExtractErr
  | unterminated
  | malformedBlock (contents : String)
  | unknownTag (command : String)
  | tagCompileError (msg : String)
  | nameError
  deriving DecidableEq, Repr

/-- The collaborating parser state `verbatim_tags` consults:
`tags` is the tag registry (`parser.tags`, compile functions keyed by
tag name; a compile function takes the token and either returns a node
or raises a `TemplateSyntaxError` carried as a message), and
`compile_function_error` is the error-recovery hook (truthy result
means the syntax error is handled).  The hooks `empty_block_tag` and
`invalid_block_tag` of the external parser always raise, which the
embedding renders as the `malformedBlock` / `unknownTag` outcomes. -/
structure Parser (Node : Type) where
  tags : String → Option (Token → Except String Node)
  compile_function_error : Token → String → Bool

/-- The loop of `verbatim_tags`, one case per iteration.  `lastNode`
is the current value of the Python local variable `node` (`none` while
it is still unbound).  Mirrors the source line by line:

* `parser.tokens.pop(0)` on an empty stream raises (`unterminated`);
* `if token.contents == endtagname: break` — checked on every token,
  before the `token_type` dispatch;
* `TOKEN_VAR`: append `'{{'`, the contents, and (after the dispatch
  chain) `'}}'`;
* `TOKEN_TEXT`: append the contents;
* `TOKEN_BLOCK`: `command = token.contents.split()[0]` (empty split
  raises through `parser.empty_block_tag`); registry lookup (a missing
  key raises through `parser.invalid_block_tag`); then
  `node = compile_func(parser, token)` — if it raises a syntax error
  that `parser.compile_function_error` does not handle, re-raise;
  afterwards `text_and_nodes.append(node)` runs in every surviving
  path, appending the stale previous `node` (or raising `NameError`)
  when the compile call failed but was handled. -/
def verbatim_tags_from {Node : Type} (p : Parser Node) (endtagname : String) :
    Option Node → List Token → Except ExtractErr (List (Fragment Node) × List Token)
  | _, [] => .error .unterminated
  | lastNode, token :: rest =>
    if token.contents = endtagname then
      .ok ([], rest)
    else
      match token.token_type with
      | .TOKEN_VAR =>
        match verbatim_tags_from p endtagname lastNode rest with
        | .ok (frags, rem) =>
          .ok (.lit "\x7b\x7b" :: .lit token.contents :: .lit "\x7d\x7d" :: frags, rem)
        | .error e => .error e
      | .TOKEN_TEXT =>
        match verbatim_tags_from p endtagname lastNode rest with
        | .ok (frags, rem) => .ok (.lit token.contents :: frags, rem)
        | .error e => .error e
      | .TOKEN_BLOCK =>
        match pyWordSplit token.contents with
        | [] => .error (.malformedBlock token.contents)
        | command :: _ =>
          match p.tags command with
          | none => .error (.unknownTag command)
          | some compile_func =>
            match compile_func token with
            | .ok node =>
              match verbatim_tags_from p endtagname (some node) rest with
              | .ok (frags, rem) => .ok (.node node :: frags, rem)
              | .error e => .error e
            | .error e =>
              if p.compile_function_error token e then
                match lastNode with
                | none => .error .nameError
                | some node =>
                  match verbatim_tags_from p endtagname (some node) rest with
                  | .ok (frags, rem) => .ok (.node node :: frags, rem)
                  | .error e2 => .error e2
              else .error (.tagCompileError e)

/-- `verbatim_tags(parser, token, endtagname)`: run the loop on the
parser's token stream (the already-popped start token plays no role in
the loop), returning the collected `text_and_nodes` together with the
tokens left in the stream. -/
def verbatim_tags {Node : Type} (p : Parser Node) (tokens : List Token)
    (endtagname : String) : Except ExtractErr (List (Fragment Node) × List Token) :=
  verbatim_tags_from p endtagname none tokens

/-- `VerbatimNode.render`: concatenate the fragments in order; a string
fragment contributes itself, a node fragment its rendered form (the
render-at-the-ambient-context function is passed in as `renderNode`). -/
def VerbatimNode.render {Node : Type} (renderNode : Node → String)
    (text_and_nodes : List (Fragment Node)) : String :=
  text_and_nodes.foldl
    (fun output bit =>
      output ++ (match bit with | .lit s => s | .node n => renderNode n)) ""

/-! ## Asset-tag helpers -/

/-- The only exception the formatting layer can raise: the `TypeError`
of Python `%`-formatting a string that has no conversion specifier
against a non-mapping value (`' async' % True`). -/
inductive JsError
  | typeError
  deriving DecidableEq, Repr

/-- The query-string branch of `javascript`: when `filename` contains a
`'?'` and `filename.split('?')` has exactly two parts (Python's
`len(...) is 2`, which on small ints is `== 2`), rebuild
`'%s?%s' % (filename, params)`; otherwise `'%s' % filename`. -/
def js_file_of (filename : String) : String :=
  let parts := py_split '?' filename.data
  if '?' ∈ filename.data ∧ parts.length = 2 then
    ⟨parts.headD [] ++ '?' :: (parts.drop 1).headD []⟩
  else filename

/-- `javascript(filename, type=None, charset=None, async=False)`:
format a `<script>` tag for a static file.  `url` is the collaborator
`staticfiles_storage.url`.  The attribute string starts as
`src="..."`; then, in source order, the `async` branch runs
`js_attrs += ' async' % async` — for a truthy `async` flag this
`%`-formatting raises `TypeError` (the format string has no
placeholder), modelled as the `typeError` outcome — then `type` and
`charset` append their attributes when present. -/
def javascript (url : String → String) (filename : String)
    (ty : Option String) (charset : Option String) (asyncFlag : Bool) :
    Except JsError String :=
  let js_file := js_file_of filename
  let js_attrs := "src=\"" ++ url js_file ++ "\""
  if asyncFlag then
    .error .typeError
  else
    let js_attrs := match ty with
      | some t => js_attrs ++ " type=\"text/" ++ t ++ "\""
      | none => js_attrs
    let js_attrs := match charset with
      | some c => js_attrs ++ " charset=\"" ++ c ++ "\""
      | none => js_attrs
    .ok ("<script " ++ js_attrs ++ "></script>")

/-- `js_lib(filename)`: `javascript('js/libs/%s' % filename)`. -/
def js_lib (url : String → String) (filename : String) : Except JsError String :=
  javascript url ("js/libs/" ++ filename) none none false

/-- A Python value as seen by `_boolean`: a bool, a str, an int, or
anything else (`None` kept as its own case for the spec's examples). -/
inductive PyValue
  | pybool (b : Bool)
  | pystr (s : String)
  | pyint (n : Int)
  | pynone
  | pyother
  deriving DecidableEq, Repr

/-- `_boolean(value)`: `isinstance` chain in source order — a bool is
returned as is; a string compares `value.lower() == 'true'`; an int
compares `value != 0`; everything else is `False`.  (Python checks
`bool` before `int`, so `True`/`False` never reach the int branch.) -/
def _boolean : PyValue → Bool
  | .pybool b => b
  | .pystr s => pyLower s == "true"
  | .pyint n => n != 0
  | .pynone => false
  | .pyother => false

/-- The configuration surface consumed by `jquery_js`
(`settings.DEBUG`, `settings.JQUERY_VERSION`). -/
structure Settings where
  DEBUG : Bool
  JQUERY_VERSION : String

/-- Python `version or default` for an optional string argument: `None`
and the empty string are falsy and select the default. -/
def pyOrDefault (version : Option String) (dflt : String) : String :=
  match version with
  | none => dflt
  | some s => if s = "" then dflt else s

/-- `jquery_js(version=None, migrate=False)`: resolve the effective
version (`version or settings.JQUERY_VERSION`), pick the suffix
(`'.min' if not settings.DEBUG else ''`), emit the jQuery library tag,
append the jquery-migrate tag when `_boolean(migrate)`, and join with
newlines.  `JQUERY_MIGRATE_VERSION` is the package-level constant,
passed in as a parameter. -/
def jquery_js (url : String → String) (settings : Settings)
    (JQUERY_MIGRATE_VERSION : String) (version : Option String)
    (migrate : PyValue) : Except JsError String :=
  let v := pyOrDefault version settings.JQUERY_VERSION
  let suffix := if settings.DEBUG = false then ".min" else ""
  match js_lib url ("jquery-" ++ v ++ suffix ++ ".js") with
  | .error e => .error e
  | .ok lib1 =>
    if _boolean migrate then
      match js_lib url ("jquery-migrate-" ++ JQUERY_MIGRATE_VERSION ++ suffix ++ ".js") with
      | .error e => .error e
      | .ok lib2 => .ok (lib1 ++ "\n" ++ lib2)
    else .ok lib1

/-! ## Concrete fixtures for closed-form evaluations -/

/-- Shorthand for a `TOKEN_TEXT` token. -/
def tokT (s : String) : Token := ⟨.TOKEN_TEXT, s⟩

/-- Shorthand for a `TOKEN_VAR` token. -/
def tokV (s : String) : Token := ⟨.TOKEN_VAR, s⟩

/-- Shorthand for a `TOKEN_BLOCK` token. -/
def tokB (s : String) : Token := ⟨.TOKEN_BLOCK, s⟩

/-- A parser with an empty tag registry and an error-recovery hook that
handles nothing. -/
def emptyParser : Parser Unit := ⟨fun _ => none, fun _ _ => false⟩

/-- A parser (over `Nat` nodes) whose registry has a tag `ok` that
compiles to node `7` and a tag `bad` whose compile function raises a
`TemplateSyntaxError`; the error-recovery hook declares every error
handled. -/
def handlingParser : Parser Nat :=
  ⟨fun name =>
      if name = "ok" then some (fun _ => .ok 7)
      else if name = "bad" then some (fun _ => .error "boom")
      else none,
    fun _ _ => true⟩

/-- Like `handlingParser` but the error-recovery hook declares every
error unhandled. -/
def rejectingParser : Parser Nat :=
  ⟨fun name => if name = "bad" then some (fun _ => .error "boom") else none,
    fun _ _ => false⟩

/-- A concrete static-asset resolver for closed-form evaluations. -/
def demoUrl (s : String) : String := "/static/" ++ s

/-! ## Helper lemmas -/

theorem string_data_append (a b : String) : (a ++ b).data = a.data ++ b.data := rfl

theorem string_eq_of_data {a b : String} (h : a.data = b.data) : a = b := by
  cases a
  cases b
  exact congrArg String.mk h

theorem string_append_assoc (a b c : String) : a ++ b ++ c = a ++ (b ++ c) :=
  string_eq_of_data (by simp only [string_data_append, List.append_assoc])

theorem splitWhen_ne_nil (p : Char → Bool) (l : List Char) : splitWhen p l ≠ [] := by
  cases l with
  | nil => simp [splitWhen]
  | cons x xs =>
    simp only [splitWhen]
    split
    · simp
    · split <;> simp

theorem joinSep_splitWhen (c : Char) (l : List Char) :
    joinSep c (splitWhen (fun x => x == c) l) = l := by
  induction l with
  | nil => rfl
  | cons x xs ih =>
    obtain ⟨h, t, hht⟩ : ∃ h t, splitWhen (fun x => x == c) xs = h :: t := by
      cases hsw : splitWhen (fun x => x == c) xs with
      | nil => exact absurd hsw (splitWhen_ne_nil _ _)
      | cons h t => exact ⟨h, t, rfl⟩
    rw [hht] at ih
    by_cases hx : x = c
    · subst hx
      simp only [splitWhen, beq_self_eq_true, if_pos, hht]
      rw [joinSep, List.nil_append, ih]
    · have hbeq : (x == c) = false := by simp [hx]
      simp only [splitWhen, hbeq, Bool.false_eq_true, if_false, hht]
      cases t with
      | nil =>
        rw [joinSep] at ih ⊢
        rw [ih]
      | cons u t2 =>
        rw [joinSep] at ih ⊢
        rw [List.cons_append, ih]

theorem joinSep_py_split (c : Char) (l : List Char) : joinSep c (py_split c l) = l :=
  joinSep_splitWhen c l

/-- The query-string special case of `javascript` is the identity: when
the filename splits into exactly two pieces at `'?'`, rejoining them
with `'?'` reconstructs the original filename. -/
theorem js_file_of_eq (filename : String) : js_file_of filename = filename := by
  unfold js_file_of
  dsimp only
  split
  · rename_i hcond
    obtain ⟨-, hlen⟩ := hcond
    obtain ⟨a, b, hab⟩ := List.length_eq_two.mp hlen
    apply string_eq_of_data
    have hjoin := joinSep_py_split '?' filename.data
    rw [hab] at hjoin ⊢
    rw [joinSep] at hjoin
    rw [joinSep] at hjoin
    simpa using hjoin
  · rfl

/-- `javascript` with all optional arguments at their defaults formats
the plain script tag around the resolved URL of the filename itself. -/
theorem javascript_plain (url : String → String) (f : String) :
    javascript url f none none false
      = Except.ok ("<script src=\"" ++ url f ++ "\"></script>") := by
  simp only [javascript, js_file_of_eq, Bool.false_eq_true, if_false,
    string_append_assoc]
  rfl

/-- `js_lib` formats the plain script tag for the `js/libs/` path. -/
theorem js_lib_plain (url : String → String) (f : String) :
    js_lib url f
      = Except.ok ("<script src=\"" ++ url ("js/libs/" ++ f) ++ "\"></script>") :=
  javascript_plain url ("js/libs/" ++ f)

/-- Rendering a fragment list made of literals only concatenates the
literals. -/
theorem render_map_lit {Node : Type} (r : Node → String) (xs : List String) :
    VerbatimNode.render r (xs.map Fragment.lit) = String.join xs := by
  unfold VerbatimNode.render String.join
  rw [List.foldl_map]

/-- A prefix of non-terminating `TOKEN_TEXT` tokens passes through the
loop as literal fragments, leaving the rest of the run unchanged. -/
theorem vt_from_text_pre {Node : Type} (p : Parser Node) (endtag : String)
    (lastNode : Option Node) (pre rest : List Token)
    (hpre : ∀ u ∈ pre, u.token_type = TokenType.TOKEN_TEXT ∧ u.contents ≠ endtag) :
    verbatim_tags_from p endtag lastNode (pre ++ rest)
      = match verbatim_tags_from p endtag lastNode rest with
        | .ok (frags, rem) =>
          .ok (pre.map (fun u => Fragment.lit u.contents) ++ frags, rem)
        | .error e => .error e := by
  induction pre with
  | nil =>
    simp only [List.nil_append, List.map_nil]
    cases hrec : verbatim_tags_from p endtag lastNode rest with
    | ok pr => obtain ⟨f, r⟩ := pr; simp
    | error e => simp
  | cons u pre ih =>
    obtain ⟨hu1, hu2⟩ := hpre u (List.mem_cons_self u pre)
    have ih2 := ih (fun w hw => hpre w (List.mem_cons_of_mem u hw))
    simp only [List.cons_append, verbatim_tags_from, if_neg hu2, hu1, List.append_eq]
    rw [ih2]
    cases hrec : verbatim_tags_from p endtag lastNode rest with
    | ok pr => obtain ⟨f, r⟩ := pr; simp
    | error e => simp

/-- Every successful run of the loop splits the stream as a prefix of
tokens whose contents differ from the end marker, then one token (of
any kind) whose contents equal the end marker, then exactly the
returned remainder. -/
theorem vt_from_ok_split {Node : Type} (p : Parser Node) (endtag : String) :
    ∀ (toks : List Token) (lastNode : Option Node) (frags : List (Fragment Node))
      (rest : List Token),
      verbatim_tags_from p endtag lastNode toks = Except.ok (frags, rest) →
      ∃ pre t, toks = pre ++ t :: rest ∧ t.contents = endtag ∧
        ∀ u ∈ pre, u.contents ≠ endtag := by
  intro toks
  induction toks with
  | nil =>
    intro lastNode frags rest h
    simp [verbatim_tags_from] at h
  | cons token rest2 ih =>
    intro lastNode frags rest h
    obtain ⟨tt, cont⟩ := token
    simp only [verbatim_tags_from] at h
    by_cases hc : cont = endtag
    · rw [if_pos hc] at h
      simp only [Except.ok.injEq, Prod.mk.injEq] at h
      obtain ⟨hfr, hre⟩ := h
      subst hre
      exact ⟨[], ⟨tt, cont⟩, by simp, hc, by simp⟩
    · rw [if_neg hc] at h
      have step :
          ∀ (ln : Option Node) (f2 : List (Fragment Node)),
            verbatim_tags_from p endtag ln rest2 = Except.ok (f2, rest) →
            ∃ pre t, (⟨tt, cont⟩ : Token) :: rest2 = pre ++ t :: rest ∧
              t.contents = endtag ∧ ∀ u ∈ pre, u.contents ≠ endtag := by
        intro ln f2 hrec
        obtain ⟨pre, t, heq, hend, hpre⟩ := ih ln f2 rest hrec
        refine ⟨⟨tt, cont⟩ :: pre, t, by rw [List.cons_append, ← heq], hend, ?_⟩
        intro u hu
        rcases List.mem_cons.mp hu with h1 | h1
        · subst h1; simpa using hc
        · exact hpre u h1
      cases tt with
      | TOKEN_VAR =>
        cases hrec : verbatim_tags_from p endtag lastNode rest2 with
        | error e => rw [hrec] at h; simp at h
        | ok pr =>
          obtain ⟨f2, rem⟩ := pr
          rw [hrec] at h
          simp only [Except.ok.injEq, Prod.mk.injEq] at h
          obtain ⟨hfr, hre⟩ := h
          subst hre
          exact step lastNode f2 hrec
      | TOKEN_TEXT =>
        cases hrec : verbatim_tags_from p endtag lastNode rest2 with
        | error e => rw [hrec] at h; simp at h
        | ok pr =>
          obtain ⟨f2, rem⟩ := pr
          rw [hrec] at h
          simp only [Except.ok.injEq, Prod.mk.injEq] at h
          obtain ⟨hfr, hre⟩ := h
          subst hre
          exact step lastNode f2 hrec
      | TOKEN_BLOCK =>
        cases hsplit : pyWordSplit cont with
        | nil => rw [hsplit] at h; simp at h
        | cons command ws =>
          rw [hsplit] at h
          dsimp only at h
          cases htag : p.tags command with
          | none => rw [htag] at h; simp at h
          | some compile_func =>
            rw [htag] at h
            dsimp only at h
            cases hcf : compile_func ⟨.TOKEN_BLOCK, cont⟩ with
            | ok node =>
              rw [hcf] at h
              dsimp only at h
              cases hrec : verbatim_tags_from p endtag (some node) rest2 with
              | error e => rw [hrec] at h; simp at h
              | ok pr =>
                obtain ⟨f2, rem⟩ := pr
                rw [hrec] at h
                simp only [Except.ok.injEq, Prod.mk.injEq] at h
                obtain ⟨hfr, hre⟩ := h
                subst hre
                exact step (some node) f2 hrec
            | error e =>
              rw [hcf] at h
              dsimp only at h
              by_cases hh : p.compile_function_error ⟨.TOKEN_BLOCK, cont⟩ e = true
              · rw [if_pos hh] at h
                cases lastNode with
                | none => simp at h
                | some node =>
                  dsimp only at h
                  cases hrec : verbatim_tags_from p endtag (some node) rest2 with
                  | error e2 => rw [hrec] at h; simp at h
                  | ok pr =>
                    obtain ⟨f2, rem⟩ := pr
                    rw [hrec] at h
                    simp only [Except.ok.injEq, Prod.mk.injEq] at h
                    obtain ⟨hfr, hre⟩ := h
                    subst hre
                    exact step (some node) f2 hrec
              · rw [if_neg hh] at h; simp at h

/-! ## Claim theorems -/

/-- C1 counterexample: extraction does NOT run past a `TEXT` token whose
contents equal the end marker.  On
`[TEXT("endverbatim"), BLOCK("endverbatim")]` with end marker
`endverbatim`, `verbatim_tags` stops at the `TEXT` token, emits no
fragment for it, and leaves the `BLOCK` token in the stream — it does
not return the fragment list `["endverbatim"]` the claim predicts. -/
theorem text_token_equal_to_marker_terminates :
    verbatim_tags emptyParser [tokT "endverbatim", tokB "endverbatim"] "endverbatim"
        = Except.ok ([], [tokB "endverbatim"]) ∧
      verbatim_tags emptyParser [tokT "endverbatim", tokB "endverbatim"] "endverbatim"
        ≠ Except.ok ([Fragment.lit "endverbatim"], []) := by
  decide

/-- C1 (amended): extraction terminates exactly at the first token of
ANY kind whose contents equal `endtagname`: a front token with matching
contents is consumed immediately and not emitted, and every successful
run splits the stream as a prefix of non-matching tokens, one matching
token, and the returned remainder. -/
theorem extraction_stops_at_first_matching_token {Node : Type} (p : Parser Node)
    (endtagname : String) (t : Token) (ts : List Token)
    (h : t.contents = endtagname) :
    verbatim_tags p (t :: ts) endtagname = Except.ok ([], ts) ∧
      ∀ toks frags rest, verbatim_tags p toks endtagname = Except.ok (frags, rest) →
        ∃ pre u, toks = pre ++ u :: rest ∧ u.contents = endtagname ∧
          ∀ w ∈ pre, w.contents ≠ endtagname := by
  constructor
  · simp only [verbatim_tags, verbatim_tags_from, if_pos h]
  · intro toks frags rest hok
    exact vt_from_ok_split p endtagname toks none frags rest hok

/-- C1 witness: a `VARIABLE` token equal to the marker terminates
extraction at once, leaving the rest of the stream untouched. -/
theorem extraction_stops_at_first_matching_token_witness :
    verbatim_tags emptyParser [tokV "endverbatim", tokT "x"] "endverbatim"
      = Except.ok ([], [tokT "x"]) :=
  (extraction_stops_at_first_matching_token emptyParser "endverbatim"
    (tokV "endverbatim") [tokT "x"] rfl).1

/-- C2: `javascript` formats `src`, `type` and `charset` as the spec's
table says, but a truthy `async` flag does not produce an `async`
attribute: the line `js_attrs += ' async' % async` raises `TypeError`
(the format string has no placeholder), so the call fails instead of
returning a tag. -/
theorem javascript_async_flag_raises :
    javascript demoUrl "app.js" none none false
        = Except.ok "<script src=\"/static/app.js\"></script>" ∧
      javascript demoUrl "app.js" (some "coffeescript") none false
        = Except.ok "<script src=\"/static/app.js\" type=\"text/coffeescript\"></script>" ∧
      javascript demoUrl "app.js" none (some "utf-8") false
        = Except.ok "<script src=\"/static/app.js\" charset=\"utf-8\"></script>" ∧
      javascript demoUrl "app.js" none none true = Except.error JsError.typeError := by
  decide

/-- C3: on a stream whose pre-terminator tokens are all `TEXT` (and, as
the terminator is by definition the first token whose contents equal
the end marker, all with non-matching contents), extraction succeeds
and the rendered concatenation of the yielded fragments equals the
concatenation of the `TEXT` payloads up to and excluding the
terminator. -/
theorem text_only_stream_concatenation {Node : Type} (p : Parser Node)
    (renderNode : Node → String) (endtagname : String)
    (pre : List Token) (t : Token) (post : List Token)
    (hpre : ∀ u ∈ pre, u.token_type = TokenType.TOKEN_TEXT ∧ u.contents ≠ endtagname)
    (ht : t.contents = endtagname) :
    ∃ frags, verbatim_tags p (pre ++ t :: post) endtagname = Except.ok (frags, post) ∧
      VerbatimNode.render renderNode frags = String.join (pre.map Token.contents) := by
  refine ⟨pre.map (fun u => Fragment.lit u.contents), ?_, ?_⟩
  · rw [verbatim_tags, vt_from_text_pre p endtagname none pre (t :: post) hpre]
    simp only [verbatim_tags_from, if_pos ht, List.append_nil]
  · rw [show pre.map (fun u => Fragment.lit u.contents)
          = (pre.map Token.contents).map Fragment.lit by rw [List.map_map]; rfl]
    exact render_map_lit renderNode (pre.map Token.contents)

/-- C3 witness: the two-text-token stream concatenates to `"ab"`. -/
theorem text_only_stream_concatenation_witness :
    ∃ frags, verbatim_tags emptyParser [tokT "a", tokT "b", tokB "endverbatim"] "endverbatim"
        = Except.ok (frags, []) ∧
      VerbatimNode.render (fun _ : Unit => "") frags
        = String.join ([tokT "a", tokT "b"].map Token.contents) :=
  text_only_stream_concatenation emptyParser (fun _ => "") "endverbatim"
    [tokT "a", tokT "b"] (tokB "endverbatim") [] (by decide) rfl

/-- C4: on `[TEXT("a"), VARIABLE("x"), TEXT("b"), BLOCK("endverbatim")]`
with end marker `endverbatim`, extraction yields exactly the fragments
`["a", "{{", "x", "}}", "b"]` (the `VARIABLE` token becomes three
literal fragments), and rendering them concatenates to `"a{{x}}b"`. -/
theorem variable_token_three_fragments :
    verbatim_tags emptyParser [tokT "a", tokV "x", tokT "b", tokB "endverbatim"]
          "endverbatim"
        = Except.ok ([Fragment.lit "a", Fragment.lit "\x7b\x7b", Fragment.lit "x",
            Fragment.lit "\x7d\x7d", Fragment.lit "b"], []) ∧
      VerbatimNode.render (fun _ : Unit => "")
          [Fragment.lit "a", Fragment.lit "\x7b\x7b", Fragment.lit "x",
            Fragment.lit "\x7d\x7d", Fragment.lit "b"]
        = "a\x7b\x7bx\x7d\x7db" := by
  decide

/-- C5: `_boolean` returns a native bool unchanged, coerces a string to
true exactly when it equals `"true"` case-insensitively (lower-cased
equality), coerces an int to true exactly when it is non-zero, and
sends every other value to false; the spec's sample points evaluate as
stated. -/
theorem boolean_coercion_cases :
    (∀ b : Bool, _boolean (PyValue.pybool b) = b) ∧
      (∀ s : String, _boolean (PyValue.pystr s) = true ↔ pyLower s = pyLower "true") ∧
      _boolean (PyValue.pystr "True") = true ∧
      _boolean (PyValue.pystr "no") = false ∧
      (∀ n : Int, _boolean (PyValue.pyint n) = true ↔ n ≠ 0) ∧
      _boolean (PyValue.pyint 0) = false ∧
      _boolean (PyValue.pyint 1) = true ∧
      _boolean PyValue.pynone = false ∧
      _boolean PyValue.pyother = false := by
  refine ⟨fun b => rfl, fun s => ?_, by decide, by decide, fun n => ?_,
    by decide, by decide, rfl, rfl⟩
  · show (pyLower s == "true") = true ↔ pyLower s = pyLower "true"
    rw [show pyLower "true" = "true" from rfl]
    exact beq_iff_eq
  · show (n != 0) = true ↔ n ≠ 0
    exact bne_iff_ne

/-- C6: reaching a non-terminator `BLOCK` token whose payload has no
whitespace-delimited word aborts extraction with the malformed-block
error (raised by the parser's `empty_block_tag` hook) and no fragment
is emitted for it; reaching one whose first word is not in the tag
registry aborts with the unknown-tag error (raised by
`invalid_block_tag`); both errors propagate out of `verbatim_tags`
past any preceding text. -/
theorem bad_block_token_raises {Node : Type} (p : Parser Node) (endtagname : String)
    (pre : List Token) (t : Token) (post : List Token)
    (hpre : ∀ u ∈ pre, u.token_type = TokenType.TOKEN_TEXT ∧ u.contents ≠ endtagname)
    (htt : t.token_type = TokenType.TOKEN_BLOCK) (hne : t.contents ≠ endtagname) :
    (pyWordSplit t.contents = [] →
      verbatim_tags p (pre ++ t :: post) endtagname
        = Except.error (ExtractErr.malformedBlock t.contents)) ∧
      ∀ command ws, pyWordSplit t.contents = command :: ws → p.tags command = none →
        verbatim_tags p (pre ++ t :: post) endtagname
          = Except.error (ExtractErr.unknownTag command) := by
  have hhead : ∀ e : ExtractErr,
      verbatim_tags_from p endtagname none (t :: post) = Except.error e →
      verbatim_tags p (pre ++ t :: post) endtagname = Except.error e := by
    intro e he
    rw [verbatim_tags, vt_from_text_pre p endtagname none pre (t :: post) hpre, he]
  obtain ⟨tt, cont⟩ := t
  dsimp only at htt hne
  subst htt
  constructor
  · intro hsplit
    dsimp only at hsplit
    apply hhead
    simp only [verbatim_tags_from, if_neg hne, hsplit]
  · intro command ws hsplit htag
    dsimp only at hsplit
    apply hhead
    simp only [verbatim_tags_from, if_neg hne, hsplit, htag]

/-- C6 witness: a whitespace-only `BLOCK` payload raises the
malformed-block error through a preceding text token (and the
unknown-tag half holds vacuously for this payload). -/
theorem bad_block_token_raises_witness :
    (pyWordSplit (tokB "  ").contents = [] →
      verbatim_tags emptyParser [tokT "s", tokB "  ", tokT "z"] "endverbatim"
        = Except.error (ExtractErr.malformedBlock (tokB "  ").contents)) ∧
      ∀ command ws, pyWordSplit (tokB "  ").contents = command :: ws →
        emptyParser.tags command = none →
        verbatim_tags emptyParser [tokT "s", tokB "  ", tokT "z"] "endverbatim"
          = Except.error (ExtractErr.unknownTag command) :=
  bad_block_token_raises emptyParser "endverbatim" [tokT "s"] (tokB "  ") [tokT "z"]
    (by decide) rfl (by decide)

/-- C7: the handled-compile-error path is broken in the code.  With a
registry whose tag `bad` raises a `TemplateSyntaxError` and a recovery
hook that declares it handled, the error is swallowed but
`text_and_nodes.append(node)` still runs: when the failed sub-tag is
the first block, the local `node` is unbound and a `NameError` escapes;
when a sub-tag `ok` compiled node `7` earlier, that stale node is
appended a second time for the failed sub-tag.  When the hook declares
the error unhandled it is re-raised, as the claim says. -/
theorem handled_compile_error_appends_stale_node :
    verbatim_tags handlingParser [tokB "bad x", tokB "endverbatim"] "endverbatim"
        = Except.error ExtractErr.nameError ∧
      verbatim_tags handlingParser [tokB "ok", tokB "bad x", tokB "endverbatim"]
          "endverbatim"
        = Except.ok ([Fragment.node 7, Fragment.node 7], []) ∧
      verbatim_tags rejectingParser [tokB "bad x", tokB "endverbatim"] "endverbatim"
        = Except.error (ExtractErr.tagCompileError "boom") := by
  decide

/-- C8: a successful extraction consumes exactly the tokens up to and
including the terminator (the first token whose contents equal the end
marker) and returns the stream suffix after the terminator verbatim —
every later token present, unmodified, in its original order. -/
theorem stream_frame_condition {Node : Type} (p : Parser Node) (endtagname : String)
    (toks : List Token) (frags : List (Fragment Node)) (rest : List Token)
    (h : verbatim_tags p toks endtagname = Except.ok (frags, rest)) :
    ∃ consumed t, toks = (consumed ++ [t]) ++ rest ∧ t.contents = endtagname ∧
      ∀ u ∈ consumed, u.contents ≠ endtagname := by
  obtain ⟨pre, t, heq, hend, hpre⟩ :=
    vt_from_ok_split p endtagname toks none frags rest h
  exact ⟨pre, t, by rw [heq]; simp, hend, hpre⟩

/-- C8 witness: the tokens after the terminator come back verbatim. -/
theorem stream_frame_condition_witness :
    ∃ consumed t,
      [tokT "a", tokB "endverbatim", tokT "after"] = (consumed ++ [t]) ++ [tokT "after"] ∧
        t.contents = "endverbatim" ∧ ∀ u ∈ consumed, u.contents ≠ "endverbatim" :=
  stream_frame_condition emptyParser "endverbatim"
    [tokT "a", tokB "endverbatim", tokT "after"] [Fragment.lit "a"] [tokT "after"]
    (by decide)

/-- C9 counterexample: the version argument `""` (present, not absent)
does not appear in the emitted path.  With `DEBUG = True` (empty
suffix) and configured version `2.0`, `jquery_js(version="")` returns
the tag for `js/libs/jquery-2.0.js` — Python's falsy
`version or settings.JQUERY_VERSION` defaults on the empty string —
and not the tag for `js/libs/jquery-.js` that the claim's
"for every version argument (defaulting only when absent)" reading
predicts. -/
theorem jquery_js_empty_version_defaults :
    jquery_js demoUrl ⟨true, "2.0"⟩ "1.2" (some "") PyValue.pynone
        = Except.ok "<script src=\"/static/js/libs/jquery-2.0.js\"></script>" ∧
      jquery_js demoUrl ⟨true, "2.0"⟩ "1.2" (some "") PyValue.pynone
        ≠ Except.ok "<script src=\"/static/js/libs/jquery-.js\"></script>" := by
  decide

/-- C9 (amended): for every version argument, `jquery_js` emits the
script tag for `js/libs/jquery-<v><suffix>.js` where `v` is the
version argument when that is a non-empty string and the configured
`JQUERY_VERSION` when the argument is absent or the empty string
(Python's falsy `version or settings.JQUERY_VERSION`, embedded as
`pyOrDefault`), and the suffix is `.min` exactly when `DEBUG` is
false; exactly when the migrate argument coerces to true under
`_boolean`, the `js/libs/jquery-migrate-<JQUERY_MIGRATE_VERSION><suffix>.js`
tag is appended, joined by a newline. -/
theorem jquery_js_two_tags (url : String → String) (st : Settings)
    (JQUERY_MIGRATE_VERSION : String) (version : Option String) (migrate : PyValue) :
    jquery_js url st JQUERY_MIGRATE_VERSION version migrate = Except.ok
      (let v := pyOrDefault version st.JQUERY_VERSION
       let suffix := if st.DEBUG = false then ".min" else ""
       let tag1 := "<script src=\"" ++ url ("js/libs/jquery-" ++ v ++ suffix ++ ".js")
           ++ "\"></script>"
       let tag2 := "<script src=\""
           ++ url ("js/libs/jquery-migrate-" ++ JQUERY_MIGRATE_VERSION ++ suffix ++ ".js")
           ++ "\"></script>"
       if _boolean migrate then tag1 ++ "\n" ++ tag2 else tag1) := by
  simp only [jquery_js, js_lib_plain, string_append_assoc]
  by_cases hm : _boolean migrate = true
  · simp only [hm, if_pos]
    rfl
  · simp only [Bool.not_eq_true] at hm
    simp only [hm, Bool.false_eq_true, if_false]
    rfl

/-- C10: the query-string split-and-rejoin branch of `javascript` is
observationally the identity — for every filename, the path handed to
the static asset resolver equals the original filename argument. -/
theorem query_string_branch_identity (filename : String) :
    js_file_of filename = filename :=
  js_file_of_eq filename

end DjangoJs
